import Mathlib

/-!
# Desktop shell bootstrap (`src/view/main.js`)

A shallow embedding of the Electron main script: the window lifecycle
controller (`createWindow`, the ready continuation, the `activate` and
`window-all-closed` listeners) and the `confirm-exit` request handler.

The host runtime is the environment.  Its signals are the constructors of
`Signal`, its window list and listener tables are the fields of `App`, the
platform identifier is a parameter, and the native dialog is an oracle
`respond` whose calls are recorded in a log.
-/

namespace MedicalVoice

/-! ## Windows -/

/-- The menu a window carries: a fresh window carries the application menu. -/
inductive Menu where
  | applicationMenu
  deriving DecidableEq, Repr

/-- The `webPreferences` object passed at lines 10-13. -/
structure WebPreferences where
  nodeIntegration : Bool
  contextIsolation : Bool
  deriving DecidableEq, Repr

/-- The constructor options passed to `new BrowserWindow` at lines 5-14. -/
structure BrowserWindowOptions where
  width : Nat
  height : Nat
  minWidth : Nat
  minHeight : Nat
  webPreferences : WebPreferences
  deriving DecidableEq, Repr

/-- A top-level window as the script can observe it: its construction
options, the document whose load was requested, and its menu (`none` is the
JavaScript `null`: no menu). -/
structure BrowserWindow where
  options : BrowserWindowOptions
  loadedFile : Option String
  menu : Option Menu
  deriving DecidableEq, Repr

/-- The effect of `new BrowserWindow(options)`: nothing loaded yet, default menu. -/
def BrowserWindow.new (options : BrowserWindowOptions) : BrowserWindow :=
  ⟨options, none, some Menu.applicationMenu⟩

/-- The effect of `win.loadFile(path)`: the load of `path` is requested. -/
def BrowserWindow.loadFile (win : BrowserWindow) (path : String) : BrowserWindow :=
  ⟨win.options, some path, win.menu⟩

/-- The effect of `win.setMenu(menu)`. -/
def BrowserWindow.setMenu (win : BrowserWindow) (menu : Option Menu) : BrowserWindow :=
  ⟨win.options, win.loadedFile, menu⟩

/-! ## Application state -/

/-- The process state the script reads and writes through the host runtime.
`windows` is `BrowserWindow.getAllWindows()`; the three listener fields count
how many times the script has registered its callback for the signal;
`quitCalls` counts the calls of `app.quit()`. -/
structure App where
  windows : List BrowserWindow
  readyContinuations : Nat
  activateListeners : Nat
  windowAllClosedListeners : Nat
  quitCalls : Nat
  deriving DecidableEq, Repr

/-- The process before the script has run: no window, nothing registered. -/
def App.blank : App := ⟨[], 0, 0, 0, 0⟩

/-- The effect of `app.quit()`: termination is requested.  The request is
only counted; the state keeps receiving signals afterwards, so what is proved
of every run holds in particular of the runs that end at the first request. -/
def App.quit (s : App) : App :=
  ⟨s.windows, s.readyContinuations, s.activateListeners, s.windowAllClosedListeners,
    s.quitCalls + 1⟩

/-- Lines 4-18: `createWindow`. -/
def createWindow (s : App) : App :=
  let win := BrowserWindow.new ⟨1280, 720, 800, 600, ⟨true, false⟩⟩
  let win := win.loadFile "src/view/index.html"
  let win := win.setMenu none
  ⟨s.windows ++ [win], s.readyContinuations, s.activateListeners,
    s.windowAllClosedListeners, s.quitCalls⟩

/-- Lines 23-27: the body of the `activate` listener. -/
def onActivate (s : App) : App :=
  if s.windows.length = 0 then createWindow s else s

/-- Lines 20-28: the continuation of `app.whenReady()`: it creates a window
and then registers the `activate` listener. -/
def onReady (s : App) : App :=
  let s := createWindow s
  ⟨s.windows, s.readyContinuations, s.activateListeners + 1,
    s.windowAllClosedListeners, s.quitCalls⟩

/-- Lines 30-34: the body of the `window-all-closed` listener; `platform` is
`process.platform`. -/
def onWindowAllClosed (platform : String) (s : App) : App :=
  if platform ≠ "darwin" then s.quit else s

/-- The top level of the script: line 20 attaches the ready continuation and
line 30 registers the `window-all-closed` listener.  (Line 36 registers the
request handler `confirmExit`, which keeps no state.) -/
def main (s : App) : App :=
  ⟨s.windows, s.readyContinuations + 1, s.activateListeners,
    s.windowAllClosedListeners + 1, s.quitCalls⟩

/-- The state once the script has been evaluated: the initial state. -/
def App.init : App := main App.blank

/-! ## Signals of the host runtime -/

/-- What the host runtime can deliver: the three lifecycle signals, and the
user closing the window at position `i` of the window list. -/
inductive Signal where
  | ready
  | activate
  | windowAllClosed
  | closeWindow (i : Nat)
  deriving DecidableEq, Repr

/-- Run a callback once per registration. -/
def emit (registrations : Nat) (callback : App → App) (s : App) : App :=
  Nat.iterate callback registrations s

/-- One signal delivered to the process: every callback registered for it
runs.  The ready signal stands for the resolution of `app.whenReady()`; that
the host delivers it once is an assumption about the host, made where needed
as a hypothesis on the sequence of signals. -/
def step (platform : String) (s : App) : Signal → App
  | Signal.ready => emit s.readyContinuations onReady s
  | Signal.activate => emit s.activateListeners onActivate s
  | Signal.windowAllClosed => emit s.windowAllClosedListeners (onWindowAllClosed platform) s
  | Signal.closeWindow i =>
      ⟨s.windows.eraseIdx i, s.readyContinuations, s.activateListeners,
        s.windowAllClosedListeners, s.quitCalls⟩

/-- A finite sequence of signals delivered in order. -/
def run (platform : String) (s : App) (signals : List Signal) : App :=
  signals.foldl (step platform) s

/-! ## The exit confirmation request -/

/-- The options object passed to `dialog.showMessageBox` at lines 37-42. -/
structure MessageBoxOptions where
  type : String
  buttons : List String
  title : String
  message : String
  deriving DecidableEq, Repr

/-- What `dialog.showMessageBox` resolves to; `response` is the index of the
button the dialog was closed with. -/
structure MessageBoxReturnValue where
  response : Int
  checkboxChecked : Bool
  deriving DecidableEq, Repr

/-- An asynchronous host call: it either resolves or rejects with an `ε`,
and it extends the log of the dialogs that were put on screen. -/
abbrev Async (ε α : Type) : Type := ExceptT ε (StateM (List MessageBoxOptions)) α

/-- The host call `dialog.showMessageBox(options)`: one dialog is put on
screen, and the host answers with `respond options`. -/
def showMessageBox {ε : Type} (respond : MessageBoxOptions → Except ε MessageBoxReturnValue)
    (options : MessageBoxOptions) : Async ε MessageBoxReturnValue :=
  ExceptT.mk (fun shown => (respond options, shown ++ [options]))

/-- Lines 36-44: the handler of the `confirm-exit` request. -/
def confirmExit {ε : Type} (respond : MessageBoxOptions → Except ε MessageBoxReturnValue)
    (message : String) : Async ε Bool := do
  let result ← showMessageBox respond ⟨"question", ["Yes", "No"], "Exit Application", message⟩
  return decide (result.response = 0)

/-- The outcome of a request: resolved with a value or rejected with an error. -/
def Async.outcome {ε α : Type} (t : Async ε α) (shown : List MessageBoxOptions) : Except ε α :=
  (t.run.run shown).1

/-- The dialogs on screen so far once the request has settled. -/
def Async.dialogs {ε α : Type} (t : Async ε α) (shown : List MessageBoxOptions) :
    List MessageBoxOptions :=
  (t.run.run shown).2

/-! ## Fields left alone by the callbacks -/

theorem emit_zero (callback : App → App) (s : App) : emit 0 callback s = s := rfl

theorem emit_succ (n : Nat) (callback : App → App) (s : App) :
    emit (n + 1) callback s = emit n callback (callback s) := rfl

theorem emit_one (callback : App → App) (s : App) : emit 1 callback s = callback s := rfl

/-- A quantity no single call changes is not changed by any number of calls. -/
theorem emit_keeps {α : Type} (f : App → α) (callback : App → App)
    (h : ∀ s, f (callback s) = f s) (n : Nat) (s : App) : f (emit n callback s) = f s := by
  induction n generalizing s with
  | zero => rfl
  | succ n ih => rw [emit_succ, ih, h]

theorem createWindow_windows (s : App) :
    (createWindow s).windows =
      s.windows ++ [⟨⟨1280, 720, 800, 600, ⟨true, false⟩⟩, some "src/view/index.html", none⟩] :=
  rfl

theorem onActivate_of_none (s : App) (h : s.windows.length = 0) :
    onActivate s = createWindow s := by
  simp [onActivate, h]

theorem onActivate_of_some (s : App) (h : 1 ≤ s.windows.length) : onActivate s = s := by
  have h0 : s.windows.length ≠ 0 := by omega
  simp [onActivate, h0]

theorem emit_onActivate_of_some (n : Nat) (s : App) (h : 1 ≤ s.windows.length) :
    emit n onActivate s = s := by
  induction n with
  | zero => rfl
  | succ n ih => rw [emit_succ, onActivate_of_some s h, ih]

theorem emit_onActivate_of_none (n : Nat) (s : App) (hn : 1 ≤ n) (h : s.windows.length = 0) :
    emit n onActivate s = createWindow s := by
  obtain ⟨k, rfl⟩ : ∃ k, n = k + 1 := ⟨n - 1, by omega⟩
  rw [emit_succ, onActivate_of_none s h]
  apply emit_onActivate_of_some
  simp [createWindow_windows]

theorem onWindowAllClosed_darwin (s : App) : onWindowAllClosed "darwin" s = s := by
  simp [onWindowAllClosed]

theorem onWindowAllClosed_other (platform : String) (h : platform ≠ "darwin") (s : App) :
    onWindowAllClosed platform s = s.quit := by
  simp [onWindowAllClosed, h]

theorem onWindowAllClosed_windows (platform : String) (s : App) :
    (onWindowAllClosed platform s).windows = s.windows := by
  unfold onWindowAllClosed; split <;> rfl

theorem onWindowAllClosed_readyContinuations (platform : String) (s : App) :
    (onWindowAllClosed platform s).readyContinuations = s.readyContinuations := by
  unfold onWindowAllClosed; split <;> rfl

theorem onWindowAllClosed_activateListeners (platform : String) (s : App) :
    (onWindowAllClosed platform s).activateListeners = s.activateListeners := by
  unfold onWindowAllClosed; split <;> rfl

theorem onWindowAllClosed_windowAllClosedListeners (platform : String) (s : App) :
    (onWindowAllClosed platform s).windowAllClosedListeners = s.windowAllClosedListeners := by
  unfold onWindowAllClosed; split <;> rfl

theorem onActivate_readyContinuations (s : App) :
    (onActivate s).readyContinuations = s.readyContinuations := by
  unfold onActivate; split <;> rfl

theorem onActivate_activateListeners (s : App) :
    (onActivate s).activateListeners = s.activateListeners := by
  unfold onActivate; split <;> rfl

theorem onActivate_windowAllClosedListeners (s : App) :
    (onActivate s).windowAllClosedListeners = s.windowAllClosedListeners := by
  unfold onActivate; split <;> rfl

theorem onActivate_quitCalls (s : App) : (onActivate s).quitCalls = s.quitCalls := by
  unfold onActivate; split <;> rfl

theorem emit_onActivate_length_le (n : Nat) (s : App) (h : s.windows.length ≤ 1) :
    (emit n onActivate s).windows.length ≤ 1 := by
  rcases Nat.eq_zero_or_pos n with rfl | hn
  · exact h
  · rcases Nat.eq_zero_or_pos s.windows.length with h0 | h1
    · rw [emit_onActivate_of_none n s hn h0, createWindow_windows]
      simp [h0]
    · rw [emit_onActivate_of_some n s h1]
      exact h

/-! ## Runs of signals -/

theorem run_nil (platform : String) (s : App) : run platform s [] = s := rfl

theorem run_cons (platform : String) (s : App) (e : Signal) (signals : List Signal) :
    run platform s (e :: signals) = run platform (step platform s e) signals := rfl

theorem onReady_readyContinuations (s : App) :
    (onReady s).readyContinuations = s.readyContinuations := rfl

theorem onReady_windowAllClosedListeners (s : App) :
    (onReady s).windowAllClosedListeners = s.windowAllClosedListeners := rfl

theorem onReady_activateListeners (s : App) :
    (onReady s).activateListeners = s.activateListeners + 1 := rfl

theorem onReady_quitCalls (s : App) : (onReady s).quitCalls = s.quitCalls := rfl

theorem onReady_windows (s : App) : (onReady s).windows = (createWindow s).windows := rfl

theorem step_readyContinuations (platform : String) (s : App) (e : Signal) :
    (step platform s e).readyContinuations = s.readyContinuations := by
  cases e with
  | ready => exact emit_keeps _ _ onReady_readyContinuations _ _
  | activate => exact emit_keeps _ _ onActivate_readyContinuations _ _
  | windowAllClosed =>
      exact emit_keeps _ _ (onWindowAllClosed_readyContinuations platform) _ _
  | closeWindow i => rfl

theorem step_windowAllClosedListeners (platform : String) (s : App) (e : Signal) :
    (step platform s e).windowAllClosedListeners = s.windowAllClosedListeners := by
  cases e with
  | ready => exact emit_keeps _ _ onReady_windowAllClosedListeners _ _
  | activate => exact emit_keeps _ _ onActivate_windowAllClosedListeners _ _
  | windowAllClosed =>
      exact emit_keeps _ _ (onWindowAllClosed_windowAllClosedListeners platform) _ _
  | closeWindow i => rfl

theorem run_readyContinuations (platform : String) (signals : List Signal) (s : App) :
    (run platform s signals).readyContinuations = s.readyContinuations := by
  induction signals generalizing s with
  | nil => rfl
  | cons e rest ih => rw [run_cons, ih, step_readyContinuations]

theorem run_windowAllClosedListeners (platform : String) (signals : List Signal) (s : App) :
    (run platform s signals).windowAllClosedListeners = s.windowAllClosedListeners := by
  induction signals generalizing s with
  | nil => rfl
  | cons e rest ih => rw [run_cons, ih, step_windowAllClosedListeners]

/-- With the continuation attached once, the ready signal runs it once. -/
theorem step_ready_of_one (platform : String) (s : App) (h : s.readyContinuations = 1) :
    step platform s Signal.ready = onReady s := by
  show emit s.readyContinuations onReady s = onReady s
  rw [h, emit_one]

theorem step_activateListeners_of_ne (platform : String) (s : App) (e : Signal)
    (h : e ≠ Signal.ready) : (step platform s e).activateListeners = s.activateListeners := by
  cases e with
  | ready => exact absurd rfl h
  | activate => exact emit_keeps _ _ onActivate_activateListeners _ _
  | windowAllClosed =>
      exact emit_keeps _ _ (onWindowAllClosed_activateListeners platform) _ _
  | closeWindow i => rfl

/-- From a state with the ready continuation attached once, the number of
registered activate listeners grows by one per ready signal. -/
theorem run_activateListeners (platform : String) (signals : List Signal) (s : App)
    (h : s.readyContinuations = 1) :
    (run platform s signals).activateListeners =
      s.activateListeners + signals.count Signal.ready := by
  induction signals generalizing s with
  | nil => simp [run_nil]
  | cons e rest ih =>
      rw [run_cons, ih _ (by rw [step_readyContinuations, h])]
      by_cases he : e = Signal.ready
      · subst he
        rw [step_ready_of_one platform s h, onReady_activateListeners]
        simp [List.count_cons]
        omega
      · rw [step_activateListeners_of_ne platform s e he]
        have : (Signal.ready == e) = false := by
          simpa using fun h' => he h'.symm
        simp [List.count_cons, he]

theorem step_length_le_of_ne (platform : String) (s : App) (e : Signal)
    (he : e ≠ Signal.ready) (h : s.windows.length ≤ 1) :
    (step platform s e).windows.length ≤ 1 := by
  cases e with
  | ready => exact absurd rfl he
  | activate => exact emit_onActivate_length_le _ s h
  | windowAllClosed =>
      show (emit _ (onWindowAllClosed platform) s).windows.length ≤ 1
      rw [emit_keeps (fun t => t.windows) _ (onWindowAllClosed_windows platform)]
      exact h
  | closeWindow i =>
      show (s.windows.eraseIdx i).length ≤ 1
      exact le_trans (List.length_eraseIdx_le _ _) h

/-- Without a ready signal, a run never takes the window count above one. -/
theorem run_length_le_of_not_ready (platform : String) (signals : List Signal) (s : App)
    (hr : Signal.ready ∉ signals) (h : s.windows.length ≤ 1) :
    (run platform s signals).windows.length ≤ 1 := by
  induction signals generalizing s with
  | nil => exact h
  | cons e rest ih =>
      rw [run_cons]
      have he : e ≠ Signal.ready := fun h' => hr (by simp [h'])
      have hrest : Signal.ready ∉ rest := fun h' => hr (by simp [h'])
      exact ih _ hrest (step_length_le_of_ne platform s e he h)

theorem step_windows_of_unregistered (platform : String) (s : App) (e : Signal)
    (he : e ≠ Signal.ready) (hw : s.windows = []) (ha : s.activateListeners = 0) :
    (step platform s e).windows = [] := by
  cases e with
  | ready => exact absurd rfl he
  | activate =>
      show (emit s.activateListeners onActivate s).windows = []
      rw [ha, emit_zero, hw]
  | windowAllClosed =>
      show (emit _ (onWindowAllClosed platform) s).windows = []
      rw [emit_keeps (fun t => t.windows) _ (onWindowAllClosed_windows platform), hw]
  | closeWindow i =>
      show s.windows.eraseIdx i = []
      rw [hw]; rfl

/-- Before the ready signal no listener for activate is registered and no
window is open, whatever else has been delivered. -/
theorem run_before_ready (platform : String) (signals : List Signal) (s : App)
    (hr : Signal.ready ∉ signals) (hw : s.windows = []) (ha : s.activateListeners = 0) :
    (run platform s signals).windows = [] ∧ (run platform s signals).activateListeners = 0 := by
  induction signals generalizing s with
  | nil => exact ⟨hw, ha⟩
  | cons e rest ih =>
      rw [run_cons]
      have he : e ≠ Signal.ready := fun h' => hr (by simp [h'])
      have hrest : Signal.ready ∉ rest := fun h' => hr (by simp [h'])
      refine ih _ hrest (step_windows_of_unregistered platform s e he hw ha) ?_
      rw [step_activateListeners_of_ne platform s e he, ha]

/-- The window-count invariant for runs with at most one ready signal. -/
theorem run_length_le_one (platform : String) (signals : List Signal) (s : App)
    (hc : s.readyContinuations = 1) (ha : s.activateListeners = 0) (hw : s.windows = [])
    (hr : signals.count Signal.ready ≤ 1) :
    (run platform s signals).windows.length ≤ 1 := by
  induction signals generalizing s with
  | nil => simp [run_nil, hw]
  | cons e rest ih =>
      rw [run_cons]
      by_cases he : e = Signal.ready
      · subst he
        have hrest : Signal.ready ∉ rest := by
          intro hmem
          have hpos : 0 < rest.count Signal.ready := List.count_pos_iff.mpr hmem
          simp [List.count_cons] at hr
          omega
        apply run_length_le_of_not_ready platform rest _ hrest
        rw [step_ready_of_one platform s hc, onReady_windows, createWindow_windows, hw]
        simp
      · have hcount : rest.count Signal.ready ≤ 1 := by
          have hle : rest.count Signal.ready ≤ (e :: rest).count Signal.ready :=
            List.count_le_count_cons _ _ _
          omega
        refine ih _ ?_ ?_ (step_windows_of_unregistered platform s e he hw ha) hcount
        · rw [step_readyContinuations, hc]
        · rw [step_activateListeners_of_ne platform s e he, ha]

theorem run_replicate_activate_of_some (platform : String) (k : Nat) (s : App)
    (h : 1 ≤ s.windows.length) : run platform s (List.replicate k Signal.activate) = s := by
  induction k with
  | zero => rfl
  | succ k ih =>
      rw [List.replicate_succ, run_cons]
      have hs : step platform s Signal.activate = s := emit_onActivate_of_some _ s h
      rw [hs, ih]

theorem run_quitCalls_darwin (signals : List Signal) (s : App) :
    (run "darwin" s signals).quitCalls = s.quitCalls := by
  induction signals generalizing s with
  | nil => rfl
  | cons e rest ih =>
      rw [run_cons, ih]
      cases e with
      | ready => exact emit_keeps _ _ onReady_quitCalls _ _
      | activate => exact emit_keeps _ _ onActivate_quitCalls _ _
      | windowAllClosed =>
          exact emit_keeps _ _ (fun t => by rw [onWindowAllClosed_darwin]) _ _
      | closeWindow i => rfl

theorem init_readyContinuations : App.init.readyContinuations = 1 := rfl

theorem init_activateListeners : App.init.activateListeners = 0 := rfl

theorem init_windowAllClosedListeners : App.init.windowAllClosedListeners = 1 := rfl

theorem init_windows : App.init.windows = [] := rfl

/-- In every state reached from the initial one, the all-windows-closed
signal runs its listener exactly once. -/
theorem step_windowAllClosed_reached (platform : String) (signals : List Signal) :
    step platform (run platform App.init signals) Signal.windowAllClosed =
      onWindowAllClosed platform (run platform App.init signals) := by
  show emit (run platform App.init signals).windowAllClosedListeners _ _ = _
  rw [run_windowAllClosedListeners, init_windowAllClosedListeners, emit_one]

/-! ## The request handler unfolded -/

/-- Both components of a settled `confirm-exit` request: the dialog log
grows by the one request built from the message, and the outcome is the
host answer with the response index compared to zero. -/
theorem confirmExit_settled {ε : Type}
    (respond : MessageBoxOptions → Except ε MessageBoxReturnValue) (message : String)
    (shown : List MessageBoxOptions) :
    (confirmExit respond message).outcome shown =
        (respond ⟨"question", ["Yes", "No"], "Exit Application", message⟩).map
          (fun r => decide (r.response = 0)) ∧
      (confirmExit respond message).dialogs shown =
        shown ++ [⟨"question", ["Yes", "No"], "Exit Application", message⟩] := by
  cases h : respond ⟨"question", ["Yes", "No"], "Exit Application", message⟩ <;>
    simp [confirmExit, showMessageBox, Async.outcome, Async.dialogs, ExceptT.run, ExceptT.mk,
      bind, ExceptT.bind, ExceptT.bindCont, StateT.bind, StateT.run, h, pure, ExceptT.pure,
      StateT.pure, Except.map]

theorem step_windowAllClosed_darwin (s : App) :
    step "darwin" s Signal.windowAllClosed = s :=
  emit_keeps id _ onWindowAllClosed_darwin _ s

theorem iterate_createWindow_windows (n : Nat) (s : App) :
    (Nat.iterate createWindow n s).windows =
      s.windows ++ List.replicate n ⟨⟨1280, 720, 800, 600, ⟨true, false⟩⟩, some "src/view/index.html", none⟩ := by
  induction n generalizing s with
  | zero => simp [Nat.iterate]
  | succ n ih =>
      show (Nat.iterate createWindow n (createWindow s)).windows = _
      rw [ih, createWindow_windows, List.replicate_succ]
      simp

/-! ## The claims -/

/-- C1: whatever the message, when the dialog closes with response index
`r.response` the `confirm-exit` handler resolves to `true` exactly when that
index is 0 (the first button, "Yes"); it resolves to `false` for index 1
("No") and for every other index; and two requests whose dialogs close with
the same index resolve alike, whatever their messages. -/
theorem confirmExit_true_iff_first_button {ε : Type}
    (respond : MessageBoxOptions → Except ε MessageBoxReturnValue) (message : String)
    (shown : List MessageBoxOptions) (r : MessageBoxReturnValue)
    (h : respond ⟨"question", ["Yes", "No"], "Exit Application", message⟩ = Except.ok r) :
    ((confirmExit respond message).outcome shown = Except.ok true ↔ r.response = 0) ∧
      (r.response = 1 → (confirmExit respond message).outcome shown = Except.ok false) ∧
      (r.response ≠ 0 → (confirmExit respond message).outcome shown = Except.ok false) ∧
      (∀ (respond' : MessageBoxOptions → Except ε MessageBoxReturnValue) (message' : String)
          (shown' : List MessageBoxOptions) (r' : MessageBoxReturnValue),
          respond' ⟨"question", ["Yes", "No"], "Exit Application", message'⟩ = Except.ok r' →
          r'.response = r.response →
          (confirmExit respond' message').outcome shown' =
            (confirmExit respond message).outcome shown) := by
  have key : ∀ (f : MessageBoxOptions → Except ε MessageBoxReturnValue) (m : String)
      (l : List MessageBoxOptions) (x : MessageBoxReturnValue),
      f ⟨"question", ["Yes", "No"], "Exit Application", m⟩ = Except.ok x →
      (confirmExit f m).outcome l = Except.ok (decide (x.response = 0)) := by
    intro f m l x hx
    rw [(confirmExit_settled f m l).1, hx]
    rfl
  rw [key respond message shown r h]
  refine ⟨?_, ?_, ?_, ?_⟩
  · simp
  · intro h1
    simp [h1]
  · intro h0
    simp [h0]
  · intro respond' message' shown' r' h' hr
    rw [key respond' message' shown' r' h', hr]

/-- C1 at Scenario 4: the user selects "No" (index 1) and the call resolves `false`. -/
theorem confirmExit_true_iff_first_button_witness :
    (confirmExit (fun _ => (Except.ok ⟨1, false⟩ : Except String MessageBoxReturnValue))
        "Unsaved changes will be lost.").outcome [] = Except.ok false :=
  (confirmExit_true_iff_first_button
    (fun _ => (Except.ok ⟨1, false⟩ : Except String MessageBoxReturnValue))
    "Unsaved changes will be lost." [] ⟨1, false⟩ rfl).2.1 rfl

/-- C2: from the initial state, along every sequence of signals in which
ready occurs exactly once, the number of open windows is at most 1 after
every initial segment of the sequence; and from any state with one window
open, any number of activate signals leaves exactly one window open. -/
theorem window_count_at_most_one (platform : String) (signals : List Signal)
    (h : signals.count Signal.ready = 1) :
    (∀ n : Nat, (run platform App.init (signals.take n)).windows.length ≤ 1) ∧
      (∀ (s : App) (k : Nat), s.windows.length = 1 →
        (run platform s (List.replicate k Signal.activate)).windows.length = 1) := by
  constructor
  · intro n
    apply run_length_le_one platform _ App.init init_readyContinuations
      init_activateListeners init_windows
    have hle : (signals.take n).count Signal.ready ≤ signals.count Signal.ready :=
      (List.take_sublist n signals).count_le _
    omega
  · intro s k hs
    rw [run_replicate_activate_of_some platform k s (by omega), hs]

/-- C2 on a run that activates before ready, closes the window and reopens it. -/
theorem window_count_at_most_one_witness :
    [Signal.activate, Signal.ready, Signal.activate, Signal.closeWindow 0,
        Signal.windowAllClosed, Signal.activate, Signal.activate].count Signal.ready = 1 ∧
      ∀ n : Nat, (run "darwin" App.init
        ([Signal.activate, Signal.ready, Signal.activate, Signal.closeWindow 0,
          Signal.windowAllClosed, Signal.activate, Signal.activate].take n)).windows.length
          ≤ 1 :=
  ⟨by decide, (window_count_at_most_one "darwin" _ (by decide)).1⟩

/-- C3, as stated, fails in the initial state: no window is open, the
activate signal arrives, and still no window is open afterwards, because the
listener is registered only by the ready continuation. -/
theorem activate_in_initial_state_opens_nothing :
    App.init.windows.length = 0 ∧
      (step "darwin" App.init Signal.activate).windows.length ≠ 1 := by
  decide

/-- C3, amended: in every state in which the activate listener is registered
(which is every state reached after a ready signal), an activate signal
arriving with zero open windows leaves exactly one window, the one
`createWindow` builds; in every state with one or more windows open the
activate signal changes nothing.  The listener body itself creates a window
exactly when none is open. -/
theorem activate_opens_window_iff_none (platform : String) (s : App) :
    (1 ≤ s.activateListeners → s.windows.length = 0 →
        step platform s Signal.activate = createWindow s ∧
        (step platform s Signal.activate).windows = [⟨⟨1280, 720, 800, 600, ⟨true, false⟩⟩, some "src/view/index.html", none⟩]) ∧
      (1 ≤ s.windows.length → step platform s Signal.activate = s) ∧
      (s.windows.length = 0 → onActivate s = createWindow s) ∧
      (1 ≤ s.windows.length → onActivate s = s) ∧
      (∀ signals : List Signal, Signal.ready ∈ signals →
        1 ≤ (run platform App.init signals).activateListeners) := by
  refine ⟨?_, ?_, onActivate_of_none s, onActivate_of_some s, ?_⟩
  · intro hl hw
    have hstep : step platform s Signal.activate = createWindow s :=
      emit_onActivate_of_none _ s hl hw
    refine ⟨hstep, ?_⟩
    rw [hstep, createWindow_windows, List.length_eq_zero.mp hw]
    rfl
  · intro hw
    exact emit_onActivate_of_some _ s hw
  · intro signals hmem
    rw [run_activateListeners platform signals App.init init_readyContinuations,
      init_activateListeners]
    have hpos : 0 < signals.count Signal.ready := List.count_pos_iff.mpr hmem
    omega

/-- C3 amended, after ready and a close: the activate signal reopens one
window; with the window open, it changes nothing. -/
theorem activate_opens_window_iff_none_witness :
    (step "linux" (run "linux" App.init [Signal.ready, Signal.closeWindow 0])
        Signal.activate).windows = [⟨⟨1280, 720, 800, 600, ⟨true, false⟩⟩, some "src/view/index.html", none⟩] ∧
      step "linux" (run "linux" App.init [Signal.ready]) Signal.activate =
        run "linux" App.init [Signal.ready] :=
  ⟨((activate_opens_window_iff_none "linux"
      (run "linux" App.init [Signal.ready, Signal.closeWindow 0])).1
      (by decide) (by decide)).2,
    (activate_opens_window_iff_none "linux" (run "linux" App.init [Signal.ready])).2.1
      (by decide)⟩

/-- C4: for every platform identifier, the all-windows-closed listener calls
`app.quit()` (once) exactly when the platform is not "darwin"; on "darwin"
it leaves the state as it is, so zero windows stay zero windows and no
termination is requested.  In every state reached from the initial one the
all-windows-closed signal has exactly that effect. -/
theorem windowAllClosed_quits_iff_not_darwin (platform : String) (s : App) :
    ((onWindowAllClosed platform s).quitCalls = s.quitCalls + 1 ↔ platform ≠ "darwin") ∧
      ((onWindowAllClosed platform s).quitCalls = s.quitCalls ↔ platform = "darwin") ∧
      (onWindowAllClosed platform s).windows = s.windows ∧
      onWindowAllClosed "darwin" s = s ∧
      (∀ signals : List Signal,
        step platform (run platform App.init signals) Signal.windowAllClosed =
          onWindowAllClosed platform (run platform App.init signals)) := by
  refine ⟨?_, ?_, onWindowAllClosed_windows platform s, onWindowAllClosed_darwin s,
    step_windowAllClosed_reached platform⟩
  · by_cases hp : platform = "darwin"
    · subst hp
      rw [onWindowAllClosed_darwin]
      simp
    · rw [onWindowAllClosed_other platform hp]
      simp [App.quit, hp]
  · by_cases hp : platform = "darwin"
    · subst hp
      rw [onWindowAllClosed_darwin]
      simp
    · rw [onWindowAllClosed_other platform hp]
      simp [App.quit, hp]

/-- C5: from the initial state, which has no window, the ready signal leaves
exactly one window, and it is the window `createWindow` builds: 1280 by 720,
no menu. -/
theorem ready_opens_one_window (platform : String) :
    App.init.windows = [] ∧
      (step platform App.init Signal.ready).windows = (createWindow App.init).windows ∧
      (step platform App.init Signal.ready).windows = [⟨⟨1280, 720, 800, 600, ⟨true, false⟩⟩, some "src/view/index.html", none⟩] ∧
      (step platform App.init Signal.ready).windows.length = 1 ∧
      (step platform App.init Signal.ready).windows.map
        (fun w => (w.options.width, w.options.height, w.menu)) = [(1280, 720, none)] := by
  rw [step_ready_of_one platform App.init init_readyContinuations]
  exact ⟨rfl, rfl, rfl, rfl, rfl⟩

/-- C6: in every state `createWindow` appends exactly one window to the open
windows and changes nothing else; the window is always the same: width 1280,
height 720, minimum width 800, minimum height 600, the load of
"src/view/index.html" requested, no menu; after `n` calls the `n` added
windows are `n` copies of it. -/
theorem createWindow_adds_fixed_window (s : App) (n : Nat) :
    (createWindow s).windows = s.windows ++ [⟨⟨1280, 720, 800, 600, ⟨true, false⟩⟩, some "src/view/index.html", none⟩] ∧
      (createWindow s).windows.length = s.windows.length + 1 ∧
      (createWindow s).readyContinuations = s.readyContinuations ∧
      (createWindow s).activateListeners = s.activateListeners ∧
      (createWindow s).windowAllClosedListeners = s.windowAllClosedListeners ∧
      (createWindow s).quitCalls = s.quitCalls ∧
      (Nat.iterate createWindow n s).windows = s.windows ++ List.replicate n ⟨⟨1280, 720, 800, 600, ⟨true, false⟩⟩, some "src/view/index.html", none⟩ := by
  refine ⟨rfl, ?_, rfl, rfl, rfl, rfl, iterate_createWindow_windows n s⟩
  rw [createWindow_windows]
  simp

/-- C7: for every message the `confirm-exit` handler puts exactly one dialog
on screen, and its request has the two buttons "Yes" then "No", the title
"Exit Application" and the message, unmodified, as body text. -/
theorem confirmExit_shows_one_dialog {ε : Type}
    (respond : MessageBoxOptions → Except ε MessageBoxReturnValue) (message : String)
    (shown : List MessageBoxOptions) :
    (confirmExit respond message).dialogs shown = shown ++ [⟨"question", ["Yes", "No"], "Exit Application", message⟩] ∧
      ((confirmExit respond message).dialogs shown).length = shown.length + 1 := by
  rw [(confirmExit_settled respond message shown).2]
  simp

/-- C8: if showing the dialog fails with an error `e`, the `confirm-exit`
handler fails with the same `e`, having put the dialog up once; if showing
the dialog succeeds, the handler resolves to a boolean, again with one
dialog. -/
theorem confirmExit_propagates_failure {ε : Type}
    (respond : MessageBoxOptions → Except ε MessageBoxReturnValue) (message : String)
    (shown : List MessageBoxOptions) :
    (∀ e : ε, respond ⟨"question", ["Yes", "No"], "Exit Application", message⟩ = Except.error e →
        (confirmExit respond message).outcome shown = Except.error e ∧
        (confirmExit respond message).dialogs shown = shown ++ [⟨"question", ["Yes", "No"], "Exit Application", message⟩]) ∧
      (∀ r : MessageBoxReturnValue, respond ⟨"question", ["Yes", "No"], "Exit Application", message⟩ = Except.ok r →
        (∃ b : Bool, (confirmExit respond message).outcome shown = Except.ok b) ∧
        (confirmExit respond message).dialogs shown = shown ++ [⟨"question", ["Yes", "No"], "Exit Application", message⟩]) := by
  obtain ⟨hout, hdial⟩ := confirmExit_settled respond message shown
  constructor
  · intro e he
    refine ⟨?_, hdial⟩
    rw [hout, he]
    rfl
  · intro r hr
    refine ⟨⟨decide (r.response = 0), ?_⟩, hdial⟩
    rw [hout, hr]
    rfl

/-- C8 on a host that rejects, and on a host that answers "Yes". -/
theorem confirmExit_propagates_failure_witness :
    ((confirmExit (fun _ => (Except.error "no display" : Except String MessageBoxReturnValue))
          "Are you sure?").outcome [] = Except.error "no display" ∧
        (confirmExit (fun _ => (Except.error "no display" : Except String MessageBoxReturnValue))
          "Are you sure?").dialogs [] = [] ++ [⟨"question", ["Yes", "No"], "Exit Application", "Are you sure?"⟩]) ∧
      ∃ b : Bool,
        (confirmExit (fun _ => (Except.ok ⟨0, false⟩ : Except String MessageBoxReturnValue))
          "Are you sure?").outcome [] = Except.ok b :=
  ⟨(confirmExit_propagates_failure
      (fun _ => (Except.error "no display" : Except String MessageBoxReturnValue))
      "Are you sure?" []).1 "no display" rfl,
    ((confirmExit_propagates_failure
      (fun _ => (Except.ok ⟨0, false⟩ : Except String MessageBoxReturnValue))
      "Are you sure?" []).2 ⟨0, false⟩ rfl).1⟩

/-- C9: on "darwin", from any state reached from the initial one by signals
with one ready among them and in which exactly one window is open, the user
closing that window followed by the all-windows-closed signal leaves zero
windows and no termination requested, and the activate signal that follows
leaves exactly one window, the one `createWindow` builds, still with no
termination requested. -/
theorem close_then_activate_on_darwin (signals : List Signal)
    (hr : signals.count Signal.ready = 1)
    (hw : (run "darwin" App.init signals).windows.length = 1) :
    (run "darwin" (run "darwin" App.init signals)
        [Signal.closeWindow 0, Signal.windowAllClosed]).windows = [] ∧
      (run "darwin" (run "darwin" App.init signals)
        [Signal.closeWindow 0, Signal.windowAllClosed]).quitCalls = 0 ∧
      (run "darwin" (run "darwin" App.init signals)
        [Signal.closeWindow 0, Signal.windowAllClosed, Signal.activate]).windows = [⟨⟨1280, 720, 800, 600, ⟨true, false⟩⟩, some "src/view/index.html", none⟩] ∧
      (run "darwin" (run "darwin" App.init signals)
        [Signal.closeWindow 0, Signal.windowAllClosed, Signal.activate]).quitCalls = 0 := by
  have hq : ∀ l : List Signal,
      (run "darwin" (run "darwin" App.init signals) l).quitCalls = 0 := by
    intro l
    rw [run_quitCalls_darwin, run_quitCalls_darwin]
    rfl
  have hlisten : (run "darwin" App.init signals).activateListeners = 1 := by
    rw [run_activateListeners "darwin" signals App.init init_readyContinuations,
      init_activateListeners, hr]
  obtain ⟨w, hwin⟩ := List.length_eq_one.mp hw
  have hclosed : (step "darwin" (run "darwin" App.init signals)
      (Signal.closeWindow 0)).windows = [] := by
    show (run "darwin" App.init signals).windows.eraseIdx 0 = []
    rw [hwin]
    rfl
  refine ⟨?_, hq _, ?_, hq _⟩
  · rw [run_cons, run_cons, run_nil, step_windowAllClosed_darwin, hclosed]
  · rw [run_cons, run_cons, run_cons, run_nil, step_windowAllClosed_darwin]
    have hl : 1 ≤ (step "darwin" (run "darwin" App.init signals)
        (Signal.closeWindow 0)).activateListeners := by
      rw [step_activateListeners_of_ne _ _ _ (by simp), hlisten]
    have hstep := emit_onActivate_of_none _ _ hl (by rw [hclosed]; rfl)
    show (emit _ onActivate _).windows = _
    rw [hstep, createWindow_windows, hclosed]
    rfl

/-- C9 right after launch: ready has fired and its window is open. -/
theorem close_then_activate_on_darwin_witness :
    [Signal.ready].count Signal.ready = 1 ∧
      (run "darwin" App.init [Signal.ready]).windows.length = 1 ∧
      (run "darwin" (run "darwin" App.init [Signal.ready])
        [Signal.closeWindow 0, Signal.windowAllClosed]).windows = [] ∧
      (run "darwin" (run "darwin" App.init [Signal.ready])
        [Signal.closeWindow 0, Signal.windowAllClosed]).quitCalls = 0 ∧
      (run "darwin" (run "darwin" App.init [Signal.ready])
        [Signal.closeWindow 0, Signal.windowAllClosed, Signal.activate]).windows = [⟨⟨1280, 720, 800, 600, ⟨true, false⟩⟩, some "src/view/index.html", none⟩] ∧
      (run "darwin" (run "darwin" App.init [Signal.ready])
        [Signal.closeWindow 0, Signal.windowAllClosed, Signal.activate]).quitCalls = 0 :=
  ⟨by decide, by decide,
    close_then_activate_on_darwin [Signal.ready] (by decide) (by decide)⟩

/-- C10: the script registers the all-windows-closed listener at its top
level and the activate listener only in the ready continuation.  So in every
state reached before a ready signal no window is open, no activate listener
is registered and an activate signal changes nothing, whereas the
all-windows-closed signal already runs its listener. -/
theorem activate_before_ready_is_noop (platform : String) (signals : List Signal)
    (hr : Signal.ready ∉ signals) :
    (run platform App.init signals).windows.length = 0 ∧
      (run platform App.init signals).activateListeners = 0 ∧
      step platform (run platform App.init signals) Signal.activate =
        run platform App.init signals ∧
      (step platform (run platform App.init signals) Signal.activate).windows.length = 0 ∧
      (main App.blank).windowAllClosedListeners = 1 ∧
      (main App.blank).activateListeners = 0 ∧
      (onReady (main App.blank)).activateListeners = 1 ∧
      step platform (run platform App.init signals) Signal.windowAllClosed =
        onWindowAllClosed platform (run platform App.init signals) := by
  obtain ⟨hwin, hlisten⟩ :=
    run_before_ready platform signals App.init hr init_windows init_activateListeners
  have hstep : step platform (run platform App.init signals) Signal.activate =
      run platform App.init signals := by
    show emit (run platform App.init signals).activateListeners onActivate _ = _
    rw [hlisten, emit_zero]
  refine ⟨by rw [hwin]; rfl, hlisten, hstep, by rw [hstep, hwin]; rfl, rfl, rfl, rfl,
    step_windowAllClosed_reached platform signals⟩

/-- C10 on "linux": activate does nothing before ready, while the
all-windows-closed signal already requests termination. -/
theorem activate_before_ready_is_noop_witness :
    Signal.ready ∉ [Signal.activate, Signal.closeWindow 0] ∧
      step "linux" (run "linux" App.init [Signal.activate, Signal.closeWindow 0])
          Signal.activate =
        run "linux" App.init [Signal.activate, Signal.closeWindow 0] ∧
      (step "linux" (run "linux" App.init [Signal.activate, Signal.closeWindow 0])
        Signal.windowAllClosed).quitCalls = 1 :=
  ⟨by decide,
    (activate_before_ready_is_noop "linux" [Signal.activate, Signal.closeWindow 0]
      (by decide)).2.2.1,
    by decide⟩

end MedicalVoice
